import Mathlib

/-!
Verification of the ffi-gen binding generator core against its
natural-language specification.

The definitions below are a shallow embedding of the code of the repository:
`abi.rs` (the ABI layout engine and the parsed-type to ABI-type
conversion) and `js.rs` (the JavaScript backend: the generated `Box`
handle class, the `NotifierRegistry` / `nativeFuture` async protocol,
and the runtime semantics of the marshaling instructions the backend
emits: `HandleError`, `Deallocate`, the 64-bit split/join pair and
`LiftTuple`).  Machine integers are modelled as `Nat` / `Int` with
explicit `% 2 ^ w` where wrap-around matters; JavaScript exceptions are
modelled with `Except`.
-/

/-! ## ABI layout engine (`abi.rs`) -/

/-- The primitive types of `abi.rs` (`PrimType`). -/
inductive PrimT
  | u8 | u16 | u32 | u64 | usize
  | i8 | i16 | i32 | i64 | isize
  | bool | f32 | f64
deriving DecidableEq

/-- The layout target of `abi.rs` (`Abi`): native with a pointer width in
bits, or flat-memory Wasm with a pointer width in bits. -/
inductive Abi
  | native (w : Nat)
  | wasm (w : Nat)
deriving DecidableEq

/-- The pointer width accessor `Abi::ptr_width`. -/
def Abi.ptrWidth : Abi → Nat
  | .native w => w
  | .wasm w => w

/-- The function `Abi::layout`: size and alignment of a primitive type, translated
clause by clause from the source.  Note the source computes
`self.ptr_width() / 4` for `Usize`/`Isize`. -/
def Abi.layout (abi : Abi) (ty : PrimT) : Nat × Nat :=
  let size :=
    match ty with
    | .u8 | .i8 | .bool => 1
    | .u16 | .i16 => 2
    | .u32 | .i32 | .f32 => 4
    | .u64 | .i64 | .f64 => 8
    | .usize | .isize => abi.ptrWidth / 4
  let size :=
    match abi with
    | .native _ => size
    | .wasm _ => max 4 size
  (size, size)

/-- Modelled from the spec: the native pointer size of the target in bytes
("4 for a 32-bit pointer width and 8 for a 64-bit pointer width"), i.e.
the pointer width in bits divided by 8.  This is the size the spec
prescribes for the pointer-sized primitives; it is deliberately NOT the
arithmetic the source performs, so that the two can be compared. -/
def Abi.specPtrSizeBytes (abi : Abi) : Nat :=
  abi.ptrWidth / 8

/-- Modelled from the spec: the "natural size" of a primitive under a
target — the standard fixed widths 1/2/4/8, with pointer-sized integers
taking the native pointer size in bytes. -/
def Abi.specNaturalSize (abi : Abi) (ty : PrimT) : Nat :=
  match ty with
  | .u8 | .i8 | .bool => 1
  | .u16 | .i16 => 2
  | .u32 | .i32 | .f32 => 4
  | .u64 | .i64 | .f64 => 8
  | .usize | .isize => abi.specPtrSizeBytes

/-! ## Handle ownership wrapper: the generated `Box` class (`js.rs`) -/

/-- The distinct error conditions the generated `Box` class raises.  In
the generated JavaScript each is a `new Error(...)` with its own message:
use after free, use after move, cannot move value twice, double free,
cannot drop moved value. -/
inductive BoxErr
  | useAfterFree
  | useAfterMove
  | moveTwice
  | doubleFree
  | dropMoved
deriving DecidableEq

/-- The observable state of one generated `Box` instance: the wrapped raw
pointer, the `dropped` and `moved` flags, and the number of times its
destructor has been invoked (0 at construction). -/
structure BoxSt where
  ptr : Nat
  dropped : Bool
  moved : Bool
  destructorCalls : Nat
deriving DecidableEq

/-- Constructor `new Box(ptr, destructor)`: both flags start false, the destructor
has not run. -/
def BoxSt.fresh (p : Nat) : BoxSt :=
  ⟨p, false, false, 0⟩

/-- Method `Box.borrow`: fails on a dropped handle, then on a moved handle,
otherwise returns the wrapped pointer; the instance fields are not
touched. -/
def BoxSt.borrow (b : BoxSt) : Except BoxErr (Nat × BoxSt) :=
  if b.dropped then .error .useAfterFree
  else if b.moved then .error .useAfterMove
  else .ok (b.ptr, b)

/-- Method `Box.move`: fails on a dropped handle, then on an already moved
handle, otherwise sets `moved` and returns the wrapped pointer (the
finalization-registry unregistration has no observable state here). -/
def BoxSt.move (b : BoxSt) : Except BoxErr (Nat × BoxSt) :=
  if b.dropped then .error .useAfterFree
  else if b.moved then .error .moveTwice
  else .ok (b.ptr, { b with moved := true })

/-- Method `Box.drop`: fails on an already dropped handle, then on a moved
handle, otherwise sets `dropped` and invokes the destructor once. -/
def BoxSt.drop (b : BoxSt) : Except BoxErr BoxSt :=
  if b.dropped then .error .doubleFree
  else if b.moved then .error .dropMoved
  else .ok ⟨b.ptr, true, b.moved, b.destructorCalls + 1⟩

/-- One of the three `Box` operations. -/
inductive BoxOp
  | borrowOp
  | moveOp
  | dropOp
deriving DecidableEq

/-- Run one operation against a `Box`; a raised error propagates to the
caller and leaves the instance fields unchanged (in the generated code
every `throw` happens before any field mutation). -/
def BoxSt.step (b : BoxSt) : BoxOp → BoxSt
  | .borrowOp =>
    match b.borrow with
    | .ok (_, b2) => b2
    | .error _ => b
  | .moveOp =>
    match b.move with
    | .ok (_, b2) => b2
    | .error _ => b
  | .dropOp =>
    match b.drop with
    | .ok b2 => b2
    | .error _ => b

/-- Run a sequence of operations against a `Box`. -/
def BoxSt.runOps (b : BoxSt) (ops : List BoxOp) : BoxSt :=
  ops.foldl BoxSt.step b

/-- Repeated `borrow`: `k` consecutive borrows, threading the state and
collecting the returned pointers; the first error aborts. -/
def BoxSt.borrows : Nat → BoxSt → Except BoxErr (List Nat × BoxSt)
  | 0, b => .ok ([], b)
  | k + 1, b =>
    match b.borrow with
    | .error e => .error e
    | .ok (v, b2) =>
      match BoxSt.borrows k b2 with
      | .error e => .error e
      | .ok (vs, b3) => .ok (v :: vs, b3)

/-! ## 64-bit split/join instructions (`js.rs`) -/

/-- Generated code of `Instr::LowerNumFromU32Tuple` for `U64`: the value
is stored into a `BigUint64Array` (wrapping modulo `2 ^ 64`) and the
backing 8 bytes are re-read as a little-endian `Uint32Array`, so the low
word is bits 0..32 and the high word bits 32..64. -/
def lowerU64FromU32Tuple (v : Nat) : Nat × Nat :=
  let bits := v % 2 ^ 64
  (bits % 2 ^ 32, bits / 2 ^ 32)

/-- Generated code of `Instr::LiftNumFromU32Tuple` for `U64`: the two
words are stored into a `Uint32Array` (each wrapping modulo `2 ^ 32`)
and the backing 8 bytes are re-read as one little-endian unsigned 64-bit
value. -/
def liftU64FromU32Tuple (low high : Nat) : Nat :=
  low % 2 ^ 32 + (high % 2 ^ 32) * 2 ^ 32

/-- Generated code of `Instr::LowerNumFromU32Tuple` for `I64`: the value
is stored into a `BigInt64Array`, whose backing bytes hold the 64-bit
twos-complement bit pattern of the value, and split into two
little-endian 32-bit words. -/
def lowerI64FromU32Tuple (v : Int) : Nat × Nat :=
  let bits := (v % (2 ^ 64 : Int)).toNat
  (bits % 2 ^ 32, bits / 2 ^ 32)

/-- Generated code of `Instr::LiftNumFromU32Tuple` for `I64`: the two
32-bit words are joined and the 64-bit pattern is read back as a signed
twos-complement value. -/
def liftI64FromU32Tuple (low high : Nat) : Int :=
  let bits : Nat := low % 2 ^ 32 + (high % 2 ^ 32) * 2 ^ 32
  if bits < 2 ^ 63 then (bits : Int) else (bits : Int) - 2 ^ 64

/-! ## `Deallocate` and `HandleError` instructions (`js.rs`) -/

/-- One call of the foreign `deallocate(pointer, size, alignment)`
export. -/
structure DeallocCall where
  ptr : Nat
  size : Nat
  align : Nat
deriving DecidableEq

/-- Generated code of `Instr::Deallocate(ptr, len, size, align)`: the
foreign `deallocate(ptr, len * size, align)` is requested exactly when
the runtime length is greater than zero.  The returned list holds the
deallocations performed. -/
def deallocateInstr (ptrV lenV : Nat) (size align : Nat) : List DeallocCall :=
  if 0 < lenV then [⟨ptrV, lenV * size, align⟩] else []

/-- The bytes of foreign linear memory at `ptr .. ptr + len`. -/
def readBytes (mem : Nat → Nat) (ptrV lenV : Nat) : List Nat :=
  (List.range lenV).map fun i => mem (ptrV + i)

/-- Outcome of the generated `HandleError` block: either it throws the
decoded UTF-8 message (modelled by its byte sequence) or it falls
through to the normal return path. -/
inductive ErrOutcome
  | thrown (msgBytes : List Nat)
  | passed
deriving DecidableEq

/-- Generated code of `Instr::HandleError(var, ptr, len, cap)`: when the
discriminant variable is 0 the failure branch runs — it decodes the
UTF-8 message from the `len` bytes at `ptr`, requests
`deallocate(ptr, cap, 1)` when `len > 0`, and throws the message; any
other discriminant falls through and the call returns normally. -/
def handleError (mem : Nat → Nat) (disc ptrV lenV capV : Nat) :
    ErrOutcome × List DeallocCall :=
  if disc = 0 then
    (.thrown (readBytes mem ptrV lenV),
     if 0 < lenV then [⟨ptrV, capV, 1⟩] else [])
  else
    (.passed, [])

/-- A linear memory holding the UTF-8 bytes of "oops!" at addresses
100..104 (o, o, p, s, !). -/
def oopsMem : Nat → Nat :=
  fun i => List.getD [111, 111, 112, 115, 33] (i - 100) 0

/-! ## Future protocol: `NotifierRegistry` and `nativeFuture` (`js.rs`) -/

/-- Outcome of one invocation of the foreign `poll` export: pending
(`null`), a ready value, or a thrown JavaScript exception (coded by a
number). -/
inductive PollRet
  | pending
  | ready (v : Nat)
  | exn (e : Nat)
deriving DecidableEq

/-- Observable state of one `nativeFuture` promise together with the
registry entries it owns: the monotonically reserved registry counter,
the list of currently registered notifier slots, the slot this future
reserved, the `Box` wrapping the future handle, the values passed to the
`resolve` function of the promise, and the number of `reject`
invocations. -/
structure FutSt where
  counter : Nat
  slots : List Nat
  idx : Nat
  box : BoxSt
  resolvedWith : List Nat
  rejectedCount : Nat
deriving DecidableEq

/-- The `poll` closure of `nativeFuture`, for one invocation whose
foreign `poll` call behaves as `ret`:

* `box.borrow()` throws → the `catch` arm rejects, then the epilogue
  unregisters the slot and calls `box.drop()` (which, on a non-live box,
  throws out of the callback — the `.error` case);
* borrow succeeds and the foreign poll is pending (`null`) → early
  return, nothing changes;
* borrow succeeds and the foreign poll yields a value → `resolve(value)`,
  then unregister the slot and drop the box;
* borrow succeeds and the foreign poll throws → `reject`, then
  unregister the slot and drop the box. -/
def futPoll (s : FutSt) (ret : PollRet) : Except BoxErr FutSt :=
  match s.box.borrow with
  | .error _ =>
    let s2 := { s with rejectedCount := s.rejectedCount + 1,
                       slots := s.slots.erase s.idx }
    match s2.box.drop with
    | .error e2 => .error e2
    | .ok b2 => .ok { s2 with box := b2 }
  | .ok _ =>
    match ret with
    | .pending => .ok s
    | .ready v =>
      let s2 := { s with resolvedWith := s.resolvedWith ++ [v],
                         slots := s.slots.erase s.idx }
      match s2.box.drop with
      | .error e2 => .error e2
      | .ok b2 => .ok { s2 with box := b2 }
    | .exn _ =>
      let s2 := { s with rejectedCount := s.rejectedCount + 1,
                         slots := s.slots.erase s.idx }
      match s2.box.drop with
      | .error e2 => .error e2
      | .ok b2 => .ok { s2 with box := b2 }

/-- The promise executor of `nativeFuture(box, nativePoll)`: reserve one
slot from the registry counter (`c0` is the current counter value),
register the notifier callback — which re-invokes `poll` with that slot,
modelled by `futWake` below — and attempt one poll immediately, whose
foreign outcome is `firstRet`. -/
def nativeFutureStart (b : BoxSt) (c0 : Nat) (firstRet : PollRet) :
    Except BoxErr FutSt :=
  futPoll
    { counter := c0 + 1
      slots := [c0]
      idx := c0
      box := b
      resolvedWith := []
      rejectedCount := 0 }
    firstRet

/-- A foreign wake at the slot of this future: the well-known notifier entry
point looks the slot up in the registry and invokes the registered
callback — which is the `poll` closure; an unregistered slot has no
callback to run. -/
def futWake (s : FutSt) (ret : PollRet) : Except BoxErr FutSt :=
  if s.idx ∈ s.slots then futPoll s ret else .ok s

/-! ## Tuple lifting (`js.rs`: `Instr::LiftTuple` and the TypeScript
return type) -/

/-- A host (JavaScript) value, as far as tuple lifting observes it: a
scalar or an array of values. -/
inductive JsVal
  | num (n : Int)
  | arr (elems : List JsVal)

/-- Generated code of `Instr::LiftTuple(vars, out)`: arity 0 emits
nothing (no host value is produced), arity 1 binds the output to the
single element unchanged, and arity ≥ 2 builds an array by pushing the
elements in order. -/
def liftTuple : List JsVal → Option JsVal
  | [] => none
  | [v] => some v
  | v :: w :: rest => some (.arr (v :: w :: rest))

/-- The numeric primitive types: `NumType` of the `js.rs` generation. -/
inductive NumT
  | u8 | u16 | u32 | u64
  | i8 | i16 | i32 | i64
  | f32 | f64
deriving DecidableEq

/-- The ABI types: `AbiType` of the `js.rs` generation (the payloads of
`Buffer` and `List` do not influence the JavaScript backend, which
rejects both). -/
inductive AbiTy
  | num (t : NumT)
  | isize
  | usize
  | bool
  | refStr
  | string
  | refSlice (t : NumT)
  | vec (t : NumT)
  | refObject (s : String)
  | object (s : String)
  | option (t : AbiTy)
  | result (t : AbiTy)
  | refIter (t : AbiTy)
  | iter (t : AbiTy)
  | refFuture (t : AbiTy)
  | future (t : AbiTy)
  | refStream (t : AbiTy)
  | stream (t : AbiTy)
  | tuple (ts : List AbiTy)
  | buffer (t : NumT)
  | list (s : String)

/-- The TypeScript types `TsGenerator::generate_return_type` can emit. -/
inductive TsType
  | number
  | bigint
  | boolean
  | string
  | array (t : TsType)
  | named (s : String)
  | optional (t : TsType)
  | iterable (t : TsType)
  | promise (t : TsType)
  | readableStream (t : TsType)
  | voidTy
  | tupleTy (ts : List TsType)

/-- The TypeScript type of a numeric primitive: `u64`/`i64` become
`BigInt`, every other numeric type becomes `number` (the source reaches
this through a recursive `generate_return_type(Some(Num(prim)))`
call). -/
def tsNum : NumT → TsType
  | .u64 | .i64 => .bigint
  | _ => .number

mutual

/-- The function `TsGenerator::generate_return_type` on `Some(ty)`, arm by
arm (identifier casing, an excluded collaborator, is not modelled: object
names pass through).  `Buffer` and `List` are unimplemented for
JavaScript and fail. -/
def tsRet : AbiTy → Except String TsType
  | .num t => .ok (tsNum t)
  | .isize | .usize => .ok .number
  | .bool => .ok .boolean
  | .refStr | .string => .ok .string
  | .refSlice t => .ok (.array (tsNum t))
  | .vec t => .ok (.array (tsNum t))
  | .refObject s => .ok (.named s)
  | .object s => .ok (.named s)
  | .option t => (tsRet t).map .optional
  | .result t => tsRet t
  | .refIter t => (tsRet t).map .iterable
  | .iter t => (tsRet t).map .iterable
  | .refFuture t => (tsRet t).map .promise
  | .future t => (tsRet t).map .promise
  | .refStream t => (tsRet t).map .readableStream
  | .stream t => (tsRet t).map .readableStream
  | .tuple [] => .ok .voidTy
  | .tuple [t] => tsRet t
  | .tuple (t :: u :: rest) => (tsRetList (t :: u :: rest)).map .tupleTy
  | .buffer _ => .error "FfiBuffer type for javascript"
  | .list _ => .error "FfiList type for javascript"

/-- The element types of a tuple, left to right. -/
def tsRetList : List AbiTy → Except String (List TsType)
  | [] => .ok []
  | t :: ts =>
    match tsRet t, tsRetList ts with
    | .ok x, .ok xs => .ok (x :: xs)
    | .error e, _ => .error e
    | _, .error e => .error e

end

/-- The full `TsGenerator::generate_return_type`: a missing return type is
`void`. -/
def tsReturnType : Option AbiTy → Except String TsType
  | none => .ok .voidTy
  | some t => tsRet t

/-! ## Parsed types and `Type::to_type` (`parser.rs`, `abi.rs`) -/

/-- The parsed IDL type (`parser.rs`: `Type`), together with the `Box`
variant that `Type::to_type` in `abi.rs` pattern-matches (present in
the crate-level `Type` at the revision `abi.rs` belongs to). -/
inductive Ty
  | u8 | u16 | u32 | u64 | usize
  | i8 | i16 | i32 | i64 | isize
  | bool | f32 | f64
  | string
  | buffer (inner : Ty)
  | ref (inner : Ty)
  | ident (name : String)
  | slice (inner : Ty)
  | vec (inner : Ty)
  | option (inner : Ty)
  | result (inner : Ty)
  | iter (inner : Ty)
  | future (inner : Ty)
  | stream (inner : Ty)
  | tuple (elems : List Ty)
  | box (inner : Ty)

/-- The ABI types of `abi.rs` (`AbiType`). -/
inductive AbiT
  | prim (p : PrimT)
  | refStr
  | string
  | refSlice (p : PrimT)
  | vec (p : PrimT)
  | box (name : String)
  | ref (name : String)
deriving DecidableEq

/-- Debug-style rendering of a primitive type, used by the fatal
generation-time error messages. -/
def primShape : PrimT → String
  | .u8 => "U8"
  | .u16 => "U16"
  | .u32 => "U32"
  | .u64 => "U64"
  | .usize => "Usize"
  | .i8 => "I8"
  | .i16 => "I16"
  | .i32 => "I32"
  | .i64 => "I64"
  | .isize => "Isize"
  | .bool => "Bool"
  | .f32 => "F32"
  | .f64 => "F64"

/-- Debug-style rendering of an ABI type, used by the fatal
generation-time error messages. -/
def abiShape : AbiT → String
  | .prim p => "Prim(" ++ primShape p ++ ")"
  | .refStr => "RefStr"
  | .string => "String"
  | .refSlice p => "RefSlice(" ++ primShape p ++ ")"
  | .vec p => "Vec(" ++ primShape p ++ ")"
  | .box s => "Box(" ++ s ++ ")"
  | .ref s => "Ref(" ++ s ++ ")"

mutual

/-- Debug-style rendering of a parsed type, the offending-shape report
of the `unimplemented!` panics in `Type::to_type`. -/
def tyShape : Ty → String
  | .u8 => "U8"
  | .u16 => "U16"
  | .u32 => "U32"
  | .u64 => "U64"
  | .usize => "Usize"
  | .i8 => "I8"
  | .i16 => "I16"
  | .i32 => "I32"
  | .i64 => "I64"
  | .isize => "Isize"
  | .bool => "Bool"
  | .f32 => "F32"
  | .f64 => "F64"
  | .string => "String"
  | .buffer t => "Buffer(" ++ tyShape t ++ ")"
  | .ref t => "Ref(" ++ tyShape t ++ ")"
  | .ident s => "Ident(" ++ s ++ ")"
  | .slice t => "Slice(" ++ tyShape t ++ ")"
  | .vec t => "Vec(" ++ tyShape t ++ ")"
  | .option t => "Option(" ++ tyShape t ++ ")"
  | .result t => "Result(" ++ tyShape t ++ ")"
  | .iter t => "Iter(" ++ tyShape t ++ ")"
  | .future t => "Future(" ++ tyShape t ++ ")"
  | .stream t => "Stream(" ++ tyShape t ++ ")"
  | .tuple ts => "Tuple([" ++ tyShapeList ts ++ "])"
  | .box t => "Box(" ++ tyShape t ++ ")"

/-- Comma-separated rendering of a list of parsed types. -/
def tyShapeList : List Ty → String
  | [] => ""
  | [t] => tyShape t
  | t :: ts => tyShape t ++ ", " ++ tyShapeList ts

end

/-- The function `Type::to_type`, translated arm by arm.  A Rust
generation-time panic is modelled as `.error` carrying the formatted
report; a panic raised by the recursive `to_type` call propagates. -/
def toType : Ty → Except String AbiT
  | .u8 => .ok (.prim .u8)
  | .u16 => .ok (.prim .u16)
  | .u32 => .ok (.prim .u32)
  | .u64 => .ok (.prim .u64)
  | .usize => .ok (.prim .usize)
  | .i8 => .ok (.prim .i8)
  | .i16 => .ok (.prim .i16)
  | .i32 => .ok (.prim .i32)
  | .i64 => .ok (.prim .i64)
  | .isize => .ok (.prim .isize)
  | .bool => .ok (.prim .bool)
  | .f32 => .ok (.prim .f32)
  | .f64 => .ok (.prim .f64)
  | .ref inner =>
    match inner with
    | .string => .ok .refStr
    | .slice i2 =>
      match toType i2 with
      | .ok (.prim p) => .ok (.refSlice p)
      | .ok t2 => .error ("&" ++ abiShape t2)
      | .error e => .error e
    | .ident s => .ok (.ref s)
    | t2 => .error ("&" ++ tyShape t2)
  | .string => .ok .string
  | .vec inner =>
    match toType inner with
    | .ok (.prim p) => .ok (.vec p)
    | .ok t2 => .error ("Vec<" ++ abiShape t2 ++ ">")
    | .error e => .error e
  | .box inner =>
    match inner with
    | .ident s => .ok (.box s)
    | t2 => .error ("Box<" ++ tyShape t2 ++ ">")
  | t2 => .error (tyShape t2)

/-- Whether a parsed type is one of the thirteen primitive types. -/
def isPrimTy : Ty → Bool
  | .u8 | .u16 | .u32 | .u64 | .usize
  | .i8 | .i16 | .i32 | .i64 | .isize
  | .bool | .f32 | .f64 => true
  | _ => false

/-- Modelled from the enumeration of supported shapes in the claim:
primitives, `string`, `&string`, `&[primitive]`, `Vec<primitive>`,
`Box<named object>`, `&named object`.  This is the spec-side predicate
the source function `Type::to_type` is compared against. -/
def supportedShape (t : Ty) : Bool :=
  match t with
  | .string => true
  | .ref .string => true
  | .ref (.slice inner) => isPrimTy inner
  | .ref (.ident _) => true
  | .vec inner => isPrimTy inner
  | .box (.ident _) => true
  | t2 => isPrimTy t2

/-! ## Theorems for C1 and C6 -/

/-- C1: the claim states that `layout` applied to `Usize`/`Isize` returns
the native pointer size of the target in bytes (4 for a 32-bit pointer width,
8 for a 64-bit one).  The code instead computes `ptr_width / 4`: on
`Native(32)` it returns size 8 and on `Native(64)` size 16, in both
cases differing from the pointer size in bytes that the claim (and the
layout contract of the spec) prescribes.  This theorem evaluates the code at the
failing inputs and records the divergence. -/
theorem c1_layout_ptr_sized_defect :
    Abi.layout (.native 32) .usize = (8, 8) ∧
    Abi.layout (.native 64) .usize = (16, 16) ∧
    Abi.layout (.native 32) .isize = (8, 8) ∧
    Abi.layout (.native 64) .isize = (16, 16) ∧
    Abi.specPtrSizeBytes (.native 32) = 4 ∧
    Abi.specPtrSizeBytes (.native 64) = 8 ∧
    (Abi.layout (.native 32) .usize).1 ≠ Abi.specPtrSizeBytes (.native 32) ∧
    (Abi.layout (.native 64) .usize).1 ≠ Abi.specPtrSizeBytes (.native 64) := by
  decide

/-- C6 counterexample: the claim, as stated, covers every primitive type;
under it a pointer-sized primitive on the 32-bit Wasm target has natural
size 4 (not narrower than 4, so not padded) and should lay out as
`(4, 4)`; the code returns `(8, 8)` because of the `ptr_width / 4` size
derivation. -/
theorem c6_wasm_padding_counterexample :
    Abi.layout (.wasm 32) .usize = (8, 8) ∧
    Abi.specNaturalSize (.wasm 32) .usize = 4 ∧
    (Abi.layout (.wasm 32) .usize).1 ≠ max 4 (Abi.specNaturalSize (.wasm 32) .usize) := by
  decide

/-- C6 (amended): for every primitive other than the pointer-sized ones,
layout under the Wasm target pads natural sizes below 4 bytes up to 4
while the 8-byte primitives keep their natural size; and under every
target, for every primitive, the returned alignment equals the returned
size. -/
theorem c6_wasm_padding_and_natural_alignment :
    (∀ w : Nat,
      Abi.layout (.wasm w) .u8 = (4, 4) ∧
      Abi.layout (.wasm w) .i8 = (4, 4) ∧
      Abi.layout (.wasm w) .bool = (4, 4) ∧
      Abi.layout (.wasm w) .u16 = (4, 4) ∧
      Abi.layout (.wasm w) .i16 = (4, 4) ∧
      Abi.layout (.wasm w) .u32 = (4, 4) ∧
      Abi.layout (.wasm w) .i32 = (4, 4) ∧
      Abi.layout (.wasm w) .f32 = (4, 4) ∧
      Abi.layout (.wasm w) .u64 = (8, 8) ∧
      Abi.layout (.wasm w) .i64 = (8, 8) ∧
      Abi.layout (.wasm w) .f64 = (8, 8)) ∧
    (∀ (abi : Abi) (ty : PrimT), (Abi.layout abi ty).2 = (Abi.layout abi ty).1) := by
  constructor
  · intro w
    refine ⟨rfl, rfl, rfl, rfl, rfl, rfl, rfl, rfl, rfl, rfl, rfl⟩
  · intro abi ty
    cases abi <;> cases ty <;> rfl

/-! ## Theorems for C3 and C10 -/

/-- Helper: every `Box` state reachable from a fresh one satisfies
"destructor calls = 1 if dropped else 0". -/
theorem boxst_step_preserves_destructor_inv (b : BoxSt) (op : BoxOp)
    (h : b.destructorCalls = if b.dropped then 1 else 0) :
    (b.step op).destructorCalls = if (b.step op).dropped then 1 else 0 := by
  rcases b with ⟨p, dropped, moved, n⟩
  cases op <;> cases dropped <;> cases moved <;>
    simp_all [BoxSt.step, BoxSt.borrow, BoxSt.move, BoxSt.drop]

/-- Helper: the destructor-once invariant holds after any operation
sequence run from a state satisfying it. -/
theorem boxst_runOps_destructor_inv (ops : List BoxOp) (b : BoxSt)
    (h : b.destructorCalls = if b.dropped then 1 else 0) :
    (b.runOps ops).destructorCalls = if (b.runOps ops).dropped then 1 else 0 := by
  induction ops generalizing b with
  | nil => exact h
  | cons op ops ih =>
    exact ih (b.step op) (boxst_step_preserves_destructor_inv b op h)

/-- C3: the `Box` lifecycle is the state machine live → moved or
live → dropped.  On a fresh handle each of the three operations
succeeds; after a drop, borrow and move raise use-after-free and drop
raises double-free; after a move, borrow raises use-after-move, a second
move raises the move-twice error and drop raises the drop-after-move
error; the five error conditions are pairwise distinct; and over any
operation sequence run from a fresh handle the destructor is invoked
exactly once if the handle was dropped and never otherwise (so exactly
once, by the single successful drop). -/
theorem c3_box_lifecycle (p : Nat) :
    (BoxSt.fresh p).borrow = .ok (p, BoxSt.fresh p) ∧
    (BoxSt.fresh p).move = .ok (p, ⟨p, false, true, 0⟩) ∧
    (BoxSt.fresh p).drop = .ok ⟨p, true, false, 1⟩ ∧
    (∀ m n, BoxSt.borrow ⟨p, true, m, n⟩ = .error .useAfterFree) ∧
    (∀ m n, BoxSt.move ⟨p, true, m, n⟩ = .error .useAfterFree) ∧
    (∀ m n, BoxSt.drop ⟨p, true, m, n⟩ = .error .doubleFree) ∧
    (∀ n, BoxSt.borrow ⟨p, false, true, n⟩ = .error .useAfterMove) ∧
    (∀ n, BoxSt.move ⟨p, false, true, n⟩ = .error .moveTwice) ∧
    (∀ n, BoxSt.drop ⟨p, false, true, n⟩ = .error .dropMoved) ∧
    ([BoxErr.useAfterFree, BoxErr.useAfterMove, BoxErr.moveTwice,
      BoxErr.doubleFree, BoxErr.dropMoved].Pairwise (· ≠ ·)) ∧
    (∀ ops : List BoxOp,
      ((BoxSt.fresh p).runOps ops).destructorCalls
        = if ((BoxSt.fresh p).runOps ops).dropped then 1 else 0) := by
  refine ⟨rfl, rfl, rfl, ?_, ?_, ?_, ?_, ?_, ?_, by decide, ?_⟩
  · intro m n; simp [BoxSt.borrow]
  · intro m n; simp [BoxSt.move]
  · intro m n; simp [BoxSt.drop]
  · intro n; simp [BoxSt.borrow]
  · intro n; simp [BoxSt.move]
  · intro n; simp [BoxSt.drop]
  · intro ops
    exact boxst_runOps_destructor_inv ops (BoxSt.fresh p) rfl

/-- C10: borrowing a live handle is state-preserving: it returns the
wrapped pointer and changes no field, so any number of consecutive
borrows all succeed, all return the same pointer, and leave the handle
exactly as it was. -/
theorem c10_borrow_frame (p n : Nat) :
    BoxSt.borrow ⟨p, false, false, n⟩ = .ok (p, ⟨p, false, false, n⟩) ∧
    (∀ k, BoxSt.borrows k ⟨p, false, false, n⟩
        = .ok (List.replicate k p, ⟨p, false, false, n⟩)) := by
  refine ⟨rfl, ?_⟩
  intro k
  induction k with
  | zero => rfl
  | succ k ih => simp [BoxSt.borrows, BoxSt.borrow, ih, List.replicate]

/-! ## Theorems for C4, C8 and C2 -/

/-- C4: joining the split halves reproduces the original 64-bit value
exactly, for every unsigned 64-bit value and every signed 64-bit value —
a bit-for-bit round trip through the two 32-bit words. -/
theorem c4_u64_i64_split_join_roundtrip :
    (∀ v : Nat, v < 2 ^ 64 →
      liftU64FromU32Tuple (lowerU64FromU32Tuple v).1 (lowerU64FromU32Tuple v).2 = v) ∧
    (∀ v : Int, -(2 ^ 63) ≤ v → v < 2 ^ 63 →
      liftI64FromU32Tuple (lowerI64FromU32Tuple v).1 (lowerI64FromU32Tuple v).2 = v) := by
  constructor
  · intro v hv
    simp only [lowerU64FromU32Tuple, liftU64FromU32Tuple]
    omega
  · intro v hlo hhi
    simp only [lowerI64FromU32Tuple, liftI64FromU32Tuple]
    split <;> omega

/-- C4 witness: the round trip at the concrete unsigned value
`12345678901234567890` and the concrete signed value `-2`. -/
theorem c4_split_join_witness :
    liftU64FromU32Tuple (lowerU64FromU32Tuple 12345678901234567890).1
        (lowerU64FromU32Tuple 12345678901234567890).2 = 12345678901234567890 ∧
    liftI64FromU32Tuple (lowerI64FromU32Tuple (-2)).1
        (lowerI64FromU32Tuple (-2)).2 = -2 :=
  ⟨c4_u64_i64_split_join_roundtrip.1 12345678901234567890 (by norm_num),
   c4_u64_i64_split_join_roundtrip.2 (-2) (by norm_num) (by norm_num)⟩

/-- C8: the generated `Deallocate` code performs a deallocation if and
only if the runtime length is positive, and when it does it is exactly
one request of `deallocate(ptr, len * size, align)`; at length zero no
deallocation happens. -/
theorem c8_deallocate_iff_positive_length (p l s a : Nat) :
    (deallocateInstr p l s a ≠ [] ↔ 0 < l) ∧
    (0 < l → deallocateInstr p l s a = [⟨p, l * s, a⟩]) ∧
    deallocateInstr p 0 s a = [] := by
  refine ⟨?_, ?_, by simp [deallocateInstr]⟩
  · unfold deallocateInstr
    split <;> simp_all
  · intro h
    simp [deallocateInstr, h]

/-- C8 witness: at length 5 and element size 2 exactly one deallocation
of 10 bytes is requested. -/
theorem c8_deallocate_witness :
    deallocateInstr 10 5 2 4 = [⟨10, 10, 4⟩] :=
  (c8_deallocate_iff_positive_length 10 5 2 4).2.1 (by decide)

/-- C2 counterexample: the claim as stated says discriminant 1 selects
the failure branch; in the generated `HandleError` code the failure
branch is `if (var === 0)`, so a foreign call yielding discriminant 1,
pointer 100, length 5 and the bytes of "oops!" in memory returns
normally and performs no deallocation, instead of surfacing the failure
the claim describes. -/
theorem c2_discriminant_one_counterexample :
    handleError oopsMem 1 100 5 5 = (.passed, []) ∧
    handleError oopsMem 1 100 5 5
      ≠ (.thrown [111, 111, 112, 115, 33], [⟨100, 5, 1⟩]) := by
  decide

/-- C2 (amended): discriminant 0 selects the failure branch and any
non-zero discriminant decodes as success.  On discriminant 0 the
generated code decodes the UTF-8 message at (pointer, length), requests
deallocation of the buffer (capacity bytes, alignment 1) exactly when
the length is positive — never more than one deallocation — and throws
the message instead of returning; in particular a call yielding
discriminant 0, pointer 100, length 5, capacity 5 and bytes "oops!"
throws exactly "oops!" and issues exactly one deallocation of 5 bytes
at pointer 100. -/
theorem c2_handle_error_decodes_and_frees (mem : Nat → Nat) (p l c : Nat) :
    handleError mem 0 p l c
      = (.thrown (readBytes mem p l), if 0 < l then [⟨p, c, 1⟩] else []) ∧
    (∀ d, d ≠ 0 → handleError mem d p l c = (.passed, [])) ∧
    (handleError mem 0 p l c).2.length ≤ 1 ∧
    handleError oopsMem 0 100 5 5
      = (.thrown [111, 111, 112, 115, 33], [⟨100, 5, 1⟩]) := by
  refine ⟨rfl, ?_, ?_, by decide⟩
  · intro d hd
    simp [handleError, hd]
  · rcases Nat.eq_zero_or_pos l with h | h <;> simp [handleError, h]

/-- C2 witness: a non-zero discriminant (7) returns normally with no
deallocation. -/
theorem c2_handle_error_witness :
    handleError oopsMem 7 100 5 5 = (.passed, []) :=
  (c2_handle_error_decodes_and_frees oopsMem 100 5 5).2.1 7 (by decide)

/-! ## Theorem for C5 -/

/-- C5: the generated future protocol reserves one notifier slot
(advancing the registry counter by one), registers the poll callback at
that slot and attempts one poll immediately; a pending immediate poll
leaves exactly that slot registered and changes nothing else.  A poll
returning pending on a live handle changes nothing at all; the first
non-pending poll appends exactly one resolution (or, for a foreign
exception, exactly one rejection), unregisters the slot and invokes the
destructor exactly once via the single `Box.drop`.  In particular a
future whose first poll is pending and whose second poll, after one wake
at the registered slot, returns 42 ends resolved exactly once with 42,
with its slot unregistered and its handle dropped exactly once. -/
theorem c5_native_future_protocol (p c0 cnt i n rc v e : Nat)
    (sl rw : List Nat) :
    nativeFutureStart (BoxSt.fresh p) c0 .pending
      = .ok ⟨c0 + 1, [c0], c0, BoxSt.fresh p, [], 0⟩ ∧
    futPoll ⟨cnt, sl, i, ⟨p, false, false, n⟩, rw, rc⟩ .pending
      = .ok ⟨cnt, sl, i, ⟨p, false, false, n⟩, rw, rc⟩ ∧
    futPoll ⟨cnt, sl, i, ⟨p, false, false, n⟩, rw, rc⟩ (.ready v)
      = .ok ⟨cnt, sl.erase i, i, ⟨p, true, false, n + 1⟩, rw ++ [v], rc⟩ ∧
    futPoll ⟨cnt, sl, i, ⟨p, false, false, n⟩, rw, rc⟩ (.exn e)
      = .ok ⟨cnt, sl.erase i, i, ⟨p, true, false, n + 1⟩, rw, rc + 1⟩ ∧
    (nativeFutureStart (BoxSt.fresh p) c0 .pending).bind
        (fun s0 => futWake s0 (.ready 42))
      = .ok ⟨c0 + 1, [], c0, ⟨p, true, false, 1⟩, [42], 0⟩ := by
  refine ⟨rfl, rfl, rfl, rfl, ?_⟩
  simp [nativeFutureStart, futPoll, futWake, BoxSt.fresh, BoxSt.borrow,
    BoxSt.drop, List.erase, Except.bind]

/-! ## Theorem for C7 -/

/-- Helper: no JavaScript value equals the singleton array wrapping
itself (a size argument). -/
theorem jsval_ne_arr_singleton (v : JsVal) : v ≠ JsVal.arr [v] := by
  intro h
  have h2 := congrArg sizeOf h
  simp only [JsVal.arr.sizeOf_spec, List.cons.sizeOf_spec,
    List.nil.sizeOf_spec] at h2
  omega

/-- C7: tuple lifting is arity-directed.  A 0-tuple lifts to no host
value at all and its declared TypeScript return type is `void`; a
1-tuple is passed through as the bare element — in particular it is
never the 1-element array container — and its declared return type is
that of the element; an n-tuple for n ≥ 2 lifts to the ordered n-element
array of its elements. -/
theorem c7_tuple_arity_directed (v a b : JsVal) (rest : List JsVal)
    (t : AbiTy) :
    liftTuple [] = none ∧
    tsReturnType (some (.tuple [])) = .ok .voidTy ∧
    liftTuple [v] = some v ∧
    liftTuple [v] ≠ some (.arr [v]) ∧
    tsReturnType (some (.tuple [t])) = tsRet t ∧
    liftTuple (a :: b :: rest) = some (.arr (a :: b :: rest)) := by
  refine ⟨rfl, rfl, rfl, ?_, rfl, rfl⟩
  intro h
  exact jsval_ne_arr_singleton v (Option.some.inj h)

/-! ## Theorem for C9 -/

/-- Helper: on a primitive parsed type `to_type` yields the
corresponding ABI primitive. -/
theorem toType_prim_of_isPrim (t : Ty) (h : isPrimTy t = true) :
    ∃ p, toType t = .ok (.prim p) := by
  cases t <;> first
    | exact ⟨_, rfl⟩
    | simp [isPrimTy] at h

/-- Helper: on a non-primitive parsed type `to_type` never yields an ABI
primitive. -/
theorem toType_not_prim (t : Ty) (h : isPrimTy t = false) (p : PrimT) :
    toType t ≠ .ok (.prim p) := by
  cases t with
  | ref inner =>
    cases inner with
    | slice i2 =>
      rcases h2 : toType i2 with e | a
      · simp [toType, h2]
      · cases a <;> simp [toType, h2]
    | _ => simp [toType]
  | vec inner =>
    rcases h2 : toType inner with e | a
    · simp [toType, h2]
    · cases a <;> simp [toType, h2]
  | box inner => cases inner <;> simp [toType]
  | string => simp [toType]
  | buffer inner => simp [toType]
  | ident s => simp [toType]
  | slice inner => simp [toType]
  | option inner => simp [toType]
  | result inner => simp [toType]
  | iter inner => simp [toType]
  | future inner => simp [toType]
  | stream inner => simp [toType]
  | tuple es => simp [toType]
  | _ => simp [isPrimTy] at h

/-- C9: converting a parsed type to its ABI type succeeds exactly on the
supported shapes — the primitives, `string`, `&string`, `&[primitive]`,
`Vec<primitive>`, `Box<named object>` and `&named object` — and fails
fatally on every other shape (options, results, tuples, iterators,
futures, streams, buffers, bare slices and identifiers, nested vectors,
other references), reporting the offending shape; three sample reports
are evaluated. -/
theorem c9_to_type_supported_iff :
    (∀ t : Ty, (toType t).isOk = supportedShape t) ∧
    toType (.option .u8) = .error "Option(U8)" ∧
    toType (.vec (.vec .u8)) = .error "Vec<Vec(U8)>" ∧
    toType (.ref (.future .i32)) = .error "&Future(I32)" := by
  refine ⟨?_, rfl, rfl, rfl⟩
  intro t
  cases t with
  | ref inner =>
    cases inner with
    | slice i2 =>
      cases hp : isPrimTy i2 with
      | true =>
        obtain ⟨p, hp2⟩ := toType_prim_of_isPrim i2 hp
        simp [toType, hp2, supportedShape, hp, Except.isOk, Except.toBool]
      | false =>
        rcases h2 : toType i2 with e | a
        · simp [toType, h2, supportedShape, hp, Except.isOk, Except.toBool]
        · cases a with
          | prim p => exact absurd h2 (toType_not_prim i2 hp p)
          | _ => simp [toType, h2, supportedShape, hp, Except.isOk, Except.toBool]
    | _ => rfl
  | vec inner =>
    cases hp : isPrimTy inner with
    | true =>
      obtain ⟨p, hp2⟩ := toType_prim_of_isPrim inner hp
      simp [toType, hp2, supportedShape, hp, Except.isOk, Except.toBool]
    | false =>
      rcases h2 : toType inner with e | a
      · simp [toType, h2, supportedShape, hp, Except.isOk, Except.toBool]
      · cases a with
        | prim p => exact absurd h2 (toType_not_prim inner hp p)
        | _ => simp [toType, h2, supportedShape, hp, Except.isOk, Except.toBool]
  | box inner => cases inner <;> rfl
  | _ => rfl
